import Mathlib

/-!
Verification development for the QA RAG chatbot repository.

The definitions below are a shallow embedding of the Python modules
`src/qa_chain_manager.py`, `src/document_loader.py` and
`src/vector_store_manager.py`.  External collaborators (the chat
completion chain, the embedding provider, the file system and the
document loaders) are modelled as explicit function parameters, so
every operation of the core is a total, executable Lean function.
-/

namespace QABot

/-! ### Python string primitives

Python strings are modelled as Lean `String` (a list of characters);
`len` is the character count and slicing is `List.take` on the
character list. -/

/-- ASCII whitespace characters stripped by the Python method strip(). -/
def pyIsSpace (c : Char) : Bool :=
  c = ' ' || c = '\t' || c = '\n' || c = '\r' || c = '\x0b' || c = '\x0c'

/-- Strip leading and trailing whitespace from a character list. -/
def pyStripList (l : List Char) : List Char :=
  ((l.dropWhile pyIsSpace).reverse.dropWhile pyIsSpace).reverse

/-- Python str.strip() with no arguments. -/
def pyStrip (s : String) : String :=
  ⟨pyStripList s.data⟩

/-- Python len() on a string: number of characters. -/
def pyLen (s : String) : Nat :=
  s.data.length

/-- Python slicing s[:n]: the first n characters. -/
def pySlice (s : String) (n : Nat) : String :=
  ⟨s.data.take n⟩

/-! ### Data model shared by the modules -/

/-- A LangChain document: page content plus metadata.  Metadata is an
insertion-ordered string dictionary, modelled as an association list. -/
structure Document where
  page_content : String
  metadata : List (String × String)
deriving DecidableEq, Repr

/-- Python dict assignment d[key] = v on an insertion-ordered
association list: overrides in place, appends when the key is new. -/
def dictSet (m : List (String × String)) (key v : String) : List (String × String) :=
  if m.any (fun p => p.1 = key) then
    m.map (fun p => if p.1 = key then (key, v) else p)
  else
    m ++ [(key, v)]

/-! ### QAChainManager (src/qa_chain_manager.py)

The conversational chain (LLM plus retriever) is an external
collaborator; it is modelled as a function from a question to either a
raised exception (an error string) or a response carrying the answer
and the retrieved source documents.  The ambient clock that feeds
datetime.now() is modelled as a natural-number counter in the state. -/

/-- Response of a successful call of the conversational retrieval chain. -/
structure ChainResponse where
  answer : String
  source_documents : List Document
deriving DecidableEq, Repr

/-- One message of the LangChain chat memory. -/
inductive ChatMsg where
  | human (text : String)
  | ai (text : String)
deriving DecidableEq, Repr

/-- One entry of QAChainManager.conversation_history, built in
ask_question lines 185-190: this is the ConversationTurn of the spec. -/
structure ConversationEntry where
  timestamp : Nat
  question : String
  answer : String
  source_count : Nat
deriving DecidableEq, Repr

/-- Mutable state of a QAChainManager: the display history list, the
message log of the ConversationBufferWindowMemory, and the clock. -/
structure QAState where
  conversation_history : List ConversationEntry
  memory_messages : List ChatMsg
  clock : Nat
deriving DecidableEq, Repr

/-- One cited source entry built in ask_question lines 176-182. -/
structure SourceInfo where
  content : String
  metadata : List (String × String)
  source_number : Nat
deriving DecidableEq, Repr

/-- Result dictionary of ask_question.  Keys that are absent in some
branches of the Python code are modelled as Option fields. -/
structure AskResult where
  answer : String
  source_documents : List SourceInfo
  question : Option String
  timestamp : Option Nat
  success : Option Bool
  error : Option String
deriving DecidableEq, Repr

/-- The source loop of ask_question lines 175-182: enumerate the
retrieved documents, truncating each excerpt to 300 characters with an
ellipsis marker, numbering from i + 1. -/
def mkSources : Nat → List Document → List SourceInfo
  | _, [] => []
  | i, d :: ds =>
    { content :=
        if 300 < pyLen d.page_content then pySlice d.page_content 300 ++ "..."
        else d.page_content,
      metadata := d.metadata,
      source_number := i + 1 } :: mkSources (i + 1) ds

/-- QAChainManager.ask_question (lines 147-212).  The chain call is the
parameter; on success the chain also saves the new turn into the window
memory, which is modelled by appending the two chat messages. -/
def askQuestion (chain : String → Except String ChainResponse)
    (st : QAState) (question : String) : AskResult × QAState :=
  if pyStrip question = "" then
    ({ answer := "Please provide a valid question.",
       source_documents := [],
       question := none, timestamp := none, success := none,
       error := some "Empty question" }, st)
  else
    match chain question with
    | Except.error e =>
      ({ answer := "I apologize, but I encountered an error while processing your question: " ++ e,
         source_documents := [],
         question := none, timestamp := none,
         success := some false, error := some e }, st)
    | Except.ok resp =>
      let sources := mkSources 0 resp.source_documents
      ({ answer := resp.answer,
         source_documents := sources,
         question := some question,
         timestamp := some st.clock,
         success := some true, error := none },
       { conversation_history := st.conversation_history ++
           [{ timestamp := st.clock, question := question,
              answer := resp.answer, source_count := sources.length }],
         memory_messages := st.memory_messages ++
           [ChatMsg.human question, ChatMsg.ai resp.answer],
         clock := st.clock + 1 })

/-- Run ask_question over a list of questions, threading the state. -/
def runQuestions (chain : String → Except String ChainResponse) :
    QAState → List String → QAState
  | st, [] => st
  | st, q :: qs => runQuestions chain (askQuestion chain st q).2 qs

/-- The windowed view of ConversationBufferWindowMemory: the buffer
property returns the last 2 * k messages (k turns) of the message log,
and the empty list when k = 0. -/
def memoryView (k : Nat) (msgs : List ChatMsg) : List ChatMsg :=
  if 0 < k then msgs.drop (msgs.length - 2 * k) else []

/-- A chain that always answers, used for concrete runs. -/
def okChain : String → Except String ChainResponse :=
  fun _ => Except.ok { answer := "answer", source_documents := [] }

/-! ### DocumentLoader (src/document_loader.py)

The text splitter configured in DocumentLoader is the recursive
character splitter with separators two newlines, one newline, space
and the empty string, keep_separator true and character length.  Its
algorithm is embedded below over character lists.  The physical file
system and the three concrete loaders (pdf, txt, docx) are external;
they are modelled by a FileEnv with an existence test and a load
function that either raises or returns the loaded documents. -/

/-- Whether the second list is an initial segment of the first. -/
def startsWithList : List Char → List Char → Bool
  | _, [] => true
  | [], _ :: _ => false
  | c :: cs, d :: ds => c = d && startsWithList cs ds

/-- Worker for splitting on a literal separator, with fuel. -/
def splitOnGo (sep : List Char) : Nat → List Char → List Char → List (List Char)
  | _, [], acc => [acc.reverse]
  | 0, l, acc => [acc.reverse ++ l]
  | fuel + 1, c :: cs, acc =>
    if startsWithList (c :: cs) sep then
      acc.reverse :: splitOnGo sep fuel (List.drop sep.length (c :: cs)) []
    else
      splitOnGo sep fuel cs (c :: acc)

/-- Split a character list on every non-overlapping leftmost occurrence
of a literal separator, as re.split does on an escaped pattern. -/
def listSplitOn (sep l : List Char) : List (List Char) :=
  if sep.isEmpty then [l] else splitOnGo sep l.length l []

/-- Whether a literal separator occurs somewhere in the text, as
re.search does on an escaped pattern. -/
def strOccurs (sep text : String) : Bool :=
  match listSplitOn sep.data text.data with
  | _ :: _ :: _ => true
  | _ => false

/-- Join string pieces with a separator, as str.join. -/
def intercalateGo (sep : List Char) : List (List Char) → List Char
  | [] => []
  | [x] => x
  | x :: xs => x ++ sep ++ intercalateGo sep xs

/-- Python sep.join(parts). -/
def strIntercalate (sep : String) (parts : List String) : String :=
  ⟨intercalateGo sep.data (parts.map (fun p => p.data))⟩

/-- ASCII lower casing of one character, as str.lower() acts on the
characters appearing in file extensions. -/
def asciiLower (c : Char) : Char :=
  if 'A' ≤ c ∧ c ≤ 'Z' then Char.ofNat (c.toNat + 32) else c

/-- Python str.lower(). -/
def strLower (s : String) : String :=
  ⟨s.data.map asciiLower⟩

/-- The separator-selection loop at the top of the recursive splitter:
take the first separator that is empty or occurs in the text, keeping
the remaining separators for recursion; default to the last separator. -/
def pickSeparator : List String → String → String × List String
  | [], _ => ("", [])
  | s :: rest, text =>
    if s = "" then ("", [])
    else if strOccurs s text then (s, rest)
    else if rest.isEmpty then (s, [])
    else pickSeparator rest text

/-- Split the text by the chosen separator with keep_separator true:
the separator stays attached to the front of the following piece, and
empty pieces are dropped.  An empty separator splits into characters. -/
def splitWithSep (sep : String) (text : String) : List String :=
  if sep = "" then
    (text.data.map (fun c => (⟨[c]⟩ : String))).filter (fun s => !(s == ""))
  else
    match (listSplitOn sep.data text.data).map (fun l => (⟨l⟩ : String)) with
    | [] => []
    | p0 :: rest => (p0 :: rest.map (fun t => sep ++ t)).filter (fun s => !(s == ""))

/-- Join accumulated pieces and strip whitespace; an all-whitespace
result is discarded (None). -/
def joinDocs (docs : List String) (sep : String) : Option String :=
  let text := pyStrip (strIntercalate sep docs)
  if text = "" then none else some text

/-- The window-shrinking loop of the merge step: pop pieces from the
front while the running total exceeds the overlap, or while the next
piece would overflow the chunk size and the total is positive. -/
def shrinkWindow (chunkSize chunkOverlap sepLen dLen : Nat) :
    List String → Nat → List String × Nat
  | [], total => ([], total)
  | c :: cs, total =>
    if chunkOverlap < total ∨ (chunkSize < total + dLen + sepLen ∧ 0 < total) then
      shrinkWindow chunkSize chunkOverlap sepLen dLen cs
        (total - (pyLen c + if cs.isEmpty then 0 else sepLen))
    else (c :: cs, total)

/-- The merge loop: greedily pack pieces into chunks up to the chunk
size, emitting the joined window on overflow and keeping an
overlap-sized tail of the window as the start of the next chunk. -/
def mergeLoop (chunkSize chunkOverlap : Nat) (sep : String) :
    List String → List String → Nat → List String → List String
  | [], current, _total, acc =>
    acc ++ (match joinDocs current sep with
            | some d => [d]
            | none => [])
  | d :: ds, current, total, acc =>
    let dLen := pyLen d
    let sepLen := pyLen sep
    if chunkSize < total + dLen + (if current.isEmpty then 0 else sepLen) then
      let acc2 := acc ++ (if current.isEmpty then []
        else match joinDocs current sep with
             | some dd => [dd]
             | none => [])
      let pair := if current.isEmpty then (current, total)
        else shrinkWindow chunkSize chunkOverlap sepLen dLen current total
      mergeLoop chunkSize chunkOverlap sep ds (pair.1 ++ [d])
        (pair.2 + dLen + (if pair.1.isEmpty then 0 else sepLen)) acc2
    else
      mergeLoop chunkSize chunkOverlap sep ds (current ++ [d])
        (total + dLen + (if current.isEmpty then 0 else sepLen)) acc

/-- Merge small splits into chunks bounded by the chunk size. -/
def mergeSplits (chunkSize chunkOverlap : Nat) (splits : List String) (sep : String) :
    List String :=
  mergeLoop chunkSize chunkOverlap sep splits [] 0 []

/-- The piece loop of the recursive splitter: pieces below the chunk
size are collected and merged; an oversized piece flushes the collected
pieces and is recursively split with the remaining separators, or kept
whole when no separators remain.  With keep_separator true the merge
separator is the empty string. -/
def splitLoop (chunkSize chunkOverlap : Nat) (recurse : String → List String)
    (noNewSeps : Bool) : List String → List String → List String → List String
  | [], goods, finals =>
    finals ++ (if goods.isEmpty then [] else mergeSplits chunkSize chunkOverlap goods "")
  | s :: ss, goods, finals =>
    if pyLen s < chunkSize then
      splitLoop chunkSize chunkOverlap recurse noNewSeps ss (goods ++ [s]) finals
    else
      let finals2 := finals ++
        (if goods.isEmpty then [] else mergeSplits chunkSize chunkOverlap goods "")
      let finals3 := finals2 ++ (if noNewSeps then [s] else recurse s)
      splitLoop chunkSize chunkOverlap recurse noNewSeps ss [] finals3

/-- The recursive splitter over a separator list, with fuel; the fuel
exceeds the separator-list length, and recursion always uses a strictly
shorter separator list, so the fuel is never exhausted. -/
def splitTextRec (chunkSize chunkOverlap : Nat) : Nat → List String → String → List String
  | 0, _, text => [text]
  | fuel + 1, separators, text =>
    let pick := pickSeparator separators text
    splitLoop chunkSize chunkOverlap
      (fun s => splitTextRec chunkSize chunkOverlap fuel pick.2 s) pick.2.isEmpty
      (splitWithSep pick.1 text) [] []

/-- The separator list configured in DocumentLoader.__init__. -/
def loaderSeparators : List String := ["\n\n", "\n", " ", ""]

/-- RecursiveCharacterTextSplitter.split_text with the DocumentLoader
configuration. -/
def splitText (chunkSize chunkOverlap : Nat) (text : String) : List String :=
  splitTextRec chunkSize chunkOverlap (loaderSeparators.length + 1) loaderSeparators text

/-- TextSplitter.split_documents: split each page text, creating one
document per chunk with the metadata of the source document. -/
def splitDocuments (chunkSize chunkOverlap : Nat) (docs : List Document) : List Document :=
  docs.flatMap (fun d => (splitText chunkSize chunkOverlap d.page_content).map
    (fun chunk => { page_content := chunk, metadata := d.metadata }))

/-- Pathlib Path(p).name for slash-separated paths: the last nonempty
component. -/
def pathName (p : String) : String :=
  ⟨((listSplitOn ['/'] p.data).filter (fun l => !(l == []))).getLastD []⟩

/-- Position of the last dot of a name, scanning with an index. -/
def lastDotIdxGo : List Char → Nat → Option Nat → Option Nat
  | [], _, acc => acc
  | c :: cs, i, acc => lastDotIdxGo cs (i + 1) (if c = '.' then some i else acc)

/-- Pathlib Path(p).suffix: from the last dot of the name, provided the
dot is neither the first nor the last character of the name. -/
def pySuffix (p : String) : String :=
  let name := (pathName p).data
  match lastDotIdxGo name 0 none with
  | none => ""
  | some i => if 0 < i ∧ i < name.length - 1 then ⟨name.drop i⟩ else ""

/-- The supported extensions of DocumentLoader. -/
def supportedExtensions : List String := [".pdf", ".txt", ".docx", ".doc"]

/-- The metadata update applied to every loaded document in
load_single_document lines 93-98. -/
def addLoadMetadata (file_path file_extension : String) (d : Document) : Document :=
  { d with metadata :=
      dictSet (dictSet (dictSet d.metadata "source_file" file_path)
        "file_name" (pathName file_path)) "file_type" file_extension }

/-- Configuration of a DocumentLoader. -/
structure DocumentLoader where
  chunk_size : Nat
  chunk_overlap : Nat
deriving DecidableEq, Repr

/-- The external file system and loaders seen by load_single_document. -/
structure FileEnv where
  fileExists : String → Bool
  loadFile : String → Except String (List Document)

/-- DocumentLoader.load_single_document (lines 55-108): missing files,
unsupported extensions and loader exceptions all yield the empty list;
otherwise the loaded documents receive provenance metadata and are
split into chunks. -/
def loadSingleDocument (dl : DocumentLoader) (env : FileEnv) (file_path : String) :
    List Document :=
  if !env.fileExists file_path then []
  else
    let file_extension := strLower (pySuffix file_path)
    if !(supportedExtensions.contains file_extension) then []
    else
      match env.loadFile file_path with
      | Except.error _ => []
      | Except.ok documents =>
        splitDocuments dl.chunk_size dl.chunk_overlap
          (documents.map (addLoadMetadata file_path file_extension))

/-- A file environment where both a supported and an unsupported file
exist and load without error. -/
def c4EnvOk : FileEnv :=
  { fileExists := fun p => p == "notes.xyz" || p == "notes.txt",
    loadFile := fun _ => Except.ok [{ page_content := "hello world", metadata := [] }] }

/-- A file environment where every file exists but reading raises. -/
def c4EnvBad : FileEnv :=
  { fileExists := fun _ => true,
    loadFile := fun _ => Except.error "read failure" }

/-- The initial state of a freshly constructed QAChainManager. -/
def initialQAState : QAState :=
  { conversation_history := [], memory_messages := [], clock := 0 }

end QABot

namespace QABot

/-! ### Helper lemmas -/

/-- A string all of whose characters are whitespace strips to the empty string. -/
theorem pyStrip_eq_empty_of_all_space (q : String)
    (h : ∀ c ∈ q.data, pyIsSpace c = true) : pyStrip q = "" := by
  have h1 : q.data.dropWhile pyIsSpace = [] :=
    List.dropWhile_eq_nil_iff.mpr h
  have : pyStripList q.data = [] := by
    simp [pyStripList, h1]
  simp [pyStrip, this]

/-- The source list has one entry per retrieved document. -/
theorem mkSources_length (i : Nat) (docs : List Document) :
    (mkSources i docs).length = docs.length := by
  induction docs generalizing i with
  | nil => simp [mkSources]
  | cons d ds ih => simp [mkSources, ih]

/-- Default source entry used with getD. -/
def defaultSource : SourceInfo :=
  { content := "", metadata := [], source_number := 0 }

/-- Default document used with getD. -/
def defaultDocument : Document :=
  { page_content := "", metadata := [] }

/-- Entry j of the source list built starting at counter i. -/
theorem mkSources_getD (docs : List Document) (i j : Nat) (h : j < docs.length) :
    (mkSources i docs).getD j defaultSource =
      { content :=
          if 300 < pyLen (docs.getD j defaultDocument).page_content then
            pySlice (docs.getD j defaultDocument).page_content 300 ++ "..."
          else (docs.getD j defaultDocument).page_content,
        metadata := (docs.getD j defaultDocument).metadata,
        source_number := i + j + 1 } := by
  induction docs generalizing i j with
  | nil => simp at h
  | cons d ds ih =>
    cases j with
    | zero => simp [mkSources]
    | succ j =>
      have hj : j < ds.length := by simpa using h
      have := ih (i + 1) j hj
      simp only [mkSources, List.getD_cons_succ]
      rw [this]
      congr 1
      omega

/-- The windowed memory view never exceeds 2 * k messages. -/
theorem memoryView_length_le (k : Nat) (msgs : List ChatMsg) :
    (memoryView k msgs).length ≤ 2 * k := by
  unfold memoryView
  split
  · rw [List.length_drop]; omega
  · simp

/-- The windowed memory view is a suffix of the full message log: the
evicted messages are exactly an initial segment (FIFO). -/
theorem memoryView_suffix_split (k : Nat) (msgs : List ChatMsg) :
    ∃ dropped, dropped ++ memoryView k msgs = msgs := by
  unfold memoryView
  split
  · exact ⟨msgs.take (msgs.length - 2 * k), List.take_append_drop _ _⟩
  · exact ⟨msgs, by simp⟩

/-- A successful, non-blank question appends exactly one history entry
and two memory messages. -/
theorem askQuestion_ok_state (chain : String → Except String ChainResponse)
    (st : QAState) (q : String) (r : ChainResponse)
    (hq : ¬ pyStrip q = "") (hc : chain q = Except.ok r) :
    (askQuestion chain st q).2 =
      { conversation_history := st.conversation_history ++
          [{ timestamp := st.clock, question := q, answer := r.answer,
             source_count := (mkSources 0 r.source_documents).length }],
        memory_messages := st.memory_messages ++
          [ChatMsg.human q, ChatMsg.ai r.answer],
        clock := st.clock + 1 } := by
  simp [askQuestion, hq, hc]

/-- Running questions that are all non-blank and all answered grows the
display history by exactly one entry per question. -/
theorem runQuestions_history_length (chain : String → Except String ChainResponse)
    (qs : List String) (st : QAState)
    (hq : ∀ q ∈ qs, ¬ pyStrip q = "")
    (hc : ∀ q ∈ qs, ∃ r, chain q = Except.ok r) :
    (runQuestions chain st qs).conversation_history.length =
      st.conversation_history.length + qs.length := by
  induction qs generalizing st with
  | nil => simp [runQuestions]
  | cons q qs ih =>
    obtain ⟨r, hr⟩ := hc q (by simp)
    have hqq := hq q (by simp)
    have hstep := askQuestion_ok_state chain st q r hqq hr
    have := ih (askQuestion chain st q).2
      (fun x hx => hq x (by simp [hx]))
      (fun x hx => hc x (by simp [hx]))
    rw [runQuestions, this, hstep]
    simp
    omega

/-! ### Claim theorems for the QA orchestrator -/

/-- C1: a question consisting only of whitespace (including the empty
string) makes ask_question return a structured failure result, with the
error field populated and success not true, without changing the state
and without invoking the chat completion chain (the result is the same
for every chain). -/
theorem c1_blank_question_rejected
    (chain : String → Except String ChainResponse) (st : QAState) (q : String)
    (h : ∀ c ∈ q.data, pyIsSpace c = true) :
    (askQuestion chain st q).1.error = some "Empty question" ∧
    (askQuestion chain st q).1.success ≠ some true ∧
    (askQuestion chain st q).2 = st ∧
    ∀ chainB, askQuestion chainB st q = askQuestion chain st q := by
  have hs : pyStrip q = "" := pyStrip_eq_empty_of_all_space q h
  refine ⟨?_, ?_, ?_, ?_⟩ <;> simp [askQuestion, hs]

/-- Witness for C1 at the concrete whitespace question. -/
theorem c1_blank_question_rejected_witness :
    (askQuestion okChain initialQAState "  ").1.error = some "Empty question" ∧
    (askQuestion okChain initialQAState "  ").1.success ≠ some true ∧
    (askQuestion okChain initialQAState "  ").2 = initialQAState ∧
    ∀ chainB, askQuestion chainB initialQAState "  " =
      askQuestion okChain initialQAState "  " :=
  c1_blank_question_rejected okChain initialQAState "  " (by decide)

/-- C2 counterexample: after eleven successful questions the stored
ConversationTurn sequence (conversation_history) holds eleven entries,
strictly more than the default memory window of ten: no eviction is
ever applied to it. -/
theorem c2_counterexample_history_exceeds_window :
    10 < (runQuestions okChain initialQAState
      ["q", "q", "q", "q", "q", "q", "q", "q", "q", "q", "q"]).conversation_history.length := by
  decide

/-- C2 amended: the stored ConversationTurn sequence grows by one entry
per successful question and is never evicted, so it is unbounded; only
the window view of the chat memory is bounded, by 2 * k messages
(k turns), and that view is a suffix of the full message log, so the
messages dropped from the view are the oldest ones (FIFO). -/
theorem c2_history_unbounded_but_memory_view_windowed
    (chain : String → Except String ChainResponse) (st : QAState)
    (qs : List String) (k : Nat)
    (hq : ∀ q ∈ qs, ¬ pyStrip q = "")
    (hc : ∀ q ∈ qs, ∃ r, chain q = Except.ok r) :
    (runQuestions chain st qs).conversation_history.length =
      st.conversation_history.length + qs.length ∧
    (memoryView k (runQuestions chain st qs).memory_messages).length ≤ 2 * k ∧
    ∃ dropped, dropped ++ memoryView k (runQuestions chain st qs).memory_messages =
      (runQuestions chain st qs).memory_messages :=
  ⟨runQuestions_history_length chain qs st hq hc,
   memoryView_length_le k _, memoryView_suffix_split k _⟩

/-- Witness for the amended C2 at a concrete two-question run. -/
theorem c2_history_unbounded_but_memory_view_windowed_witness :
    (runQuestions okChain initialQAState ["a", "b"]).conversation_history.length =
      initialQAState.conversation_history.length + (["a", "b"] : List String).length ∧
    (memoryView 10 (runQuestions okChain initialQAState ["a", "b"]).memory_messages).length ≤ 2 * 10 ∧
    ∃ dropped, dropped ++ memoryView 10 (runQuestions okChain initialQAState ["a", "b"]).memory_messages =
      (runQuestions okChain initialQAState ["a", "b"]).memory_messages :=
  c2_history_unbounded_but_memory_view_windowed okChain initialQAState ["a", "b"] 10
    (by decide)
    (fun q _ => ⟨{ answer := "answer", source_documents := [] }, rfl⟩)

/-- C3: when the chain raises during ask_question, the returned result
has success = false and the error field populated with the raised
message, and the manager state, in particular the conversation history,
is unchanged: no ConversationTurn is appended on failure. -/
theorem c3_failure_returns_error_and_preserves_history
    (chain : String → Except String ChainResponse) (st : QAState)
    (q e : String)
    (hq : ¬ pyStrip q = "") (hc : chain q = Except.error e) :
    (askQuestion chain st q).1.success = some false ∧
    (askQuestion chain st q).1.error = some e ∧
    (askQuestion chain st q).2 = st := by
  refine ⟨?_, ?_, ?_⟩ <;> simp [askQuestion, hq, hc]

/-- Witness for C3 with a chain that times out on every question. -/
theorem c3_failure_returns_error_and_preserves_history_witness :
    (askQuestion (fun _ => Except.error "Request timed out") initialQAState "What is ML?").1.success = some false ∧
    (askQuestion (fun _ => Except.error "Request timed out") initialQAState "What is ML?").1.error = some "Request timed out" ∧
    (askQuestion (fun _ => Except.error "Request timed out") initialQAState "What is ML?").2 = initialQAState :=
  c3_failure_returns_error_and_preserves_history
    (fun _ => Except.error "Request timed out") initialQAState "What is ML?" "Request timed out"
    (by decide) rfl

/-- C9: the cited source list has one entry per retrieved document, in
retrieval order; entry j carries source number j + 1, the metadata of
document j, and as content the full chunk text when it has at most 300
characters, and otherwise exactly its first 300 characters followed by
an ellipsis marker. -/
theorem c9_source_excerpts_order_and_truncation
    (docs : List Document) (j : Nat) (h : j < docs.length) :
    (mkSources 0 docs).length = docs.length ∧
    ((mkSources 0 docs).getD j defaultSource).source_number = j + 1 ∧
    ((mkSources 0 docs).getD j defaultSource).content =
      (if 300 < pyLen (docs.getD j defaultDocument).page_content then
        pySlice (docs.getD j defaultDocument).page_content 300 ++ "..."
      else (docs.getD j defaultDocument).page_content) ∧
    ((mkSources 0 docs).getD j defaultSource).metadata =
      (docs.getD j defaultDocument).metadata := by
  have hg := mkSources_getD docs 0 j h
  refine ⟨mkSources_length 0 docs, ?_, ?_, ?_⟩
  all_goals rw [hg]
  all_goals simp

/-- Witness for C9 on a concrete one-document retrieval. -/
theorem c9_source_excerpts_order_and_truncation_witness :
    (mkSources 0 [{ page_content := "hello", metadata := [("k", "v")] }]).length =
      ([{ page_content := "hello", metadata := [("k", "v")] }] : List Document).length ∧
    ((mkSources 0 [{ page_content := "hello", metadata := [("k", "v")] }]).getD 0 defaultSource).source_number = 0 + 1 ∧
    ((mkSources 0 [{ page_content := "hello", metadata := [("k", "v")] }]).getD 0 defaultSource).content =
      (if 300 < pyLen (([{ page_content := "hello", metadata := [("k", "v")] }] : List Document).getD 0 defaultDocument).page_content then
        pySlice (([{ page_content := "hello", metadata := [("k", "v")] }] : List Document).getD 0 defaultDocument).page_content 300 ++ "..."
      else (([{ page_content := "hello", metadata := [("k", "v")] }] : List Document).getD 0 defaultDocument).page_content) ∧
    ((mkSources 0 [{ page_content := "hello", metadata := [("k", "v")] }]).getD 0 defaultSource).metadata =
      (([{ page_content := "hello", metadata := [("k", "v")] }] : List Document).getD 0 defaultDocument).metadata :=
  c9_source_excerpts_order_and_truncation
    [{ page_content := "hello", metadata := [("k", "v")] }] 0 (by decide)

end QABot

namespace QABot

/-! ### Claim theorems for the document loader -/

/-- C4 counterexample: a file with the unsupported extension .xyz whose
content would produce a nonempty chunk list under a supported extension
is not rejected with any error: load_single_document returns the plain
empty list, the very same outcome as for an unreadable file, so no
UnsupportedFormatError distinguishes the two cases. -/
theorem c4_counterexample_unsupported_not_rejected :
    loadSingleDocument ⟨1000, 200⟩ c4EnvOk "notes.xyz" = [] ∧
    loadSingleDocument ⟨1000, 200⟩ c4EnvOk "notes.txt" ≠ [] ∧
    loadSingleDocument ⟨1000, 200⟩ c4EnvOk "notes.xyz" =
      loadSingleDocument ⟨1000, 200⟩ c4EnvBad "notes.txt" := by
  refine ⟨by decide, by decide, by decide⟩

/-- C4 amended: load_single_document never raises; a missing file, an
unsupported extension, or a loader exception each yield the empty chunk
list, reported to the caller as an ordinary empty result. -/
theorem c4_amended_unsupported_and_unreadable_yield_empty
    (dl : DocumentLoader) (env : FileEnv) (p : String)
    (h : env.fileExists p = false ∨
         supportedExtensions.contains (strLower (pySuffix p)) = false ∨
         ∃ e, env.loadFile p = Except.error e) :
    loadSingleDocument dl env p = [] := by
  rcases h with h | h | ⟨e, he⟩
  · simp [loadSingleDocument, h]
  · by_cases hex : env.fileExists p
    · simp only [loadSingleDocument, hex, Bool.not_true, Bool.false_eq_true, if_false]
      rw [if_pos]
      simpa using h
    · simp [loadSingleDocument, hex]
  · by_cases hex : env.fileExists p
    · by_cases hsupp : supportedExtensions.contains (strLower (pySuffix p))
      · simp [loadSingleDocument, hex, hsupp, he]
      · simp only [loadSingleDocument, hex, Bool.not_true, Bool.false_eq_true, if_false]
        rw [if_pos]
        simpa using hsupp
    · simp [loadSingleDocument, hex]

/-- Witness for the amended C4 at a concrete unsupported file. -/
theorem c4_amended_unsupported_and_unreadable_yield_empty_witness :
    loadSingleDocument ⟨1000, 200⟩ c4EnvOk "notes.xyz" = [] :=
  c4_amended_unsupported_and_unreadable_yield_empty ⟨1000, 200⟩ c4EnvOk "notes.xyz"
    (Or.inr (Or.inl (by decide)))

/-- C8: chunking is a deterministic function of the text and the
configuration: two loaders with the same chunk size and overlap produce
identical chunk sequences on identical documents. -/
theorem c8_chunking_deterministic (l1 l2 : DocumentLoader)
    (hs : l1.chunk_size = l2.chunk_size) (ho : l1.chunk_overlap = l2.chunk_overlap)
    (docs : List Document) :
    splitDocuments l1.chunk_size l1.chunk_overlap docs =
      splitDocuments l2.chunk_size l2.chunk_overlap docs := by
  rw [hs, ho]

/-- Witness for C8: two runs with the default configuration agree on a
concrete document. -/
theorem c8_chunking_deterministic_witness :
    splitDocuments (⟨1000, 200⟩ : DocumentLoader).chunk_size
        (⟨1000, 200⟩ : DocumentLoader).chunk_overlap
        [{ page_content := "hello world", metadata := [] }] =
      splitDocuments (⟨1000, 200⟩ : DocumentLoader).chunk_size
        (⟨1000, 200⟩ : DocumentLoader).chunk_overlap
        [{ page_content := "hello world", metadata := [] }] :=
  c8_chunking_deterministic ⟨1000, 200⟩ ⟨1000, 200⟩ rfl rfl
    [{ page_content := "hello world", metadata := [] }]

end QABot

namespace QABot

/-! ### VectorStoreManager (src/vector_store_manager.py)

The embedding provider is external: it is modelled as a function from
text to either a raised exception or a vector, together with the
configured dimensionality.  The backing Chroma collection embeds the
whole batch first and only then commits the records, per the vector
index contract; the similarity ranking of the backend is a parameter,
ordered by descending score with the record identifier as tie break. -/

/-- One record of the backing collection. -/
structure ChromaRecord where
  id : Nat
  vector : List Int
  text : String
  metadata : List (String × String)
deriving DecidableEq, Repr

/-- The backing collection: records plus the next fresh identifier. -/
structure ChromaState where
  records : List ChromaRecord
  nextId : Nat
deriving DecidableEq, Repr

/-- The external embedding provider with its configured dimensionality. -/
structure EmbedEnv where
  embed : String → Except String (List Int)
  dim : Nat

/-- Whether the provider fails or returns a wrong-dimension vector on a
given text. -/
def badEmbedding (env : EmbedEnv) (text : String) : Bool :=
  match env.embed text with
  | Except.error _ => true
  | Except.ok v => !(v.length == env.dim)

/-- Embed every document of a batch, failing on the first provider
error or wrong-dimension vector. -/
def embedAll (env : EmbedEnv) : List Document → Except String (List (List Int))
  | [] => Except.ok []
  | d :: ds =>
    match env.embed d.page_content with
    | Except.error e => Except.error e
    | Except.ok v =>
      if v.length = env.dim then
        match embedAll env ds with
        | Except.error e => Except.error e
        | Except.ok vs => Except.ok (v :: vs)
      else Except.error "embedding has wrong dimensionality"

/-- Build the records of a committed batch, assigning sequential fresh
identifiers. -/
def mkRecords (startId : Nat) : List (Document × List Int) → List ChromaRecord
  | [] => []
  | (d, v) :: rest =>
    { id := startId, vector := v, text := d.page_content, metadata := d.metadata } ::
      mkRecords (startId + 1) rest

/-- The backend add operation: embed the whole batch, then commit it;
nothing is committed when embedding fails. -/
def chromaAddDocuments (env : EmbedEnv) (st : ChromaState) (docs : List Document) :
    Except String (List Nat × ChromaState) :=
  match embedAll env docs with
  | Except.error e => Except.error e
  | Except.ok vs =>
    let recs := mkRecords st.nextId (docs.zip vs)
    Except.ok (recs.map (fun r => r.id),
      { records := st.records ++ recs, nextId := st.nextId + docs.length })

/-- State of a VectorStoreManager. -/
structure VectorStoreManager where
  collection_name : String
  persist_directory : String
  vector_store : Option ChromaState

/-- VectorStoreManager.add_documents (lines 99-127): empty batches are
skipped; a backend exception is re-raised and leaves the manager
unchanged. -/
def addDocuments (env : EmbedEnv) (m : VectorStoreManager) (docs : List Document) :
    Except String (List Nat) × VectorStoreManager :=
  if docs.isEmpty then (Except.ok [], m)
  else
    match m.vector_store with
    | none => (Except.error "vector store not initialized", m)
    | some st =>
      match chromaAddDocuments env st docs with
      | Except.error e => (Except.error e, m)
      | Except.ok pair => (Except.ok pair.1, { m with vector_store := some pair.2 })

/-- Insert a record into a ranked list. -/
def insertRanked (better : ChromaRecord → ChromaRecord → Bool) (r : ChromaRecord) :
    List ChromaRecord → List ChromaRecord
  | [] => [r]
  | x :: xs => if better r x then r :: x :: xs else x :: insertRanked better r xs

/-- Sort records by the ranking relation. -/
def sortRanked (better : ChromaRecord → ChromaRecord → Bool) :
    List ChromaRecord → List ChromaRecord
  | [] => []
  | x :: xs => insertRanked better x (sortRanked better xs)

/-- Strict ranking: descending similarity score, record identifier as
tie break. -/
def rankBetter (sim : List Int → List Int → Int) (q : List Int)
    (a b : ChromaRecord) : Bool :=
  sim q b.vector < sim q a.vector ∨
    (sim q a.vector = sim q b.vector ∧ a.id < b.id)

/-- The backend similarity search: embed the query, then return the
top k records as documents; a provider failure is raised. -/
def chromaSimilaritySearch (env : EmbedEnv) (sim : List Int → List Int → Int)
    (st : ChromaState) (query : String) (k : Nat) : Except String (List Document) :=
  match env.embed query with
  | Except.error e => Except.error e
  | Except.ok qv =>
    Except.ok (((sortRanked (rankBetter sim qv) st.records).take k).map
      (fun r => { page_content := r.text, metadata := r.metadata }))

/-- VectorStoreManager.similarity_search (lines 129-169): an
uninitialized store returns the empty list, and every backend exception
is caught, logged and turned into the empty list. -/
def similaritySearch (env : EmbedEnv) (sim : List Int → List Int → Int)
    (m : VectorStoreManager) (query : String) (k : Nat) : List Document :=
  match m.vector_store with
  | none => []
  | some st =>
    match chromaSimilaritySearch env sim st query k with
    | Except.error _ => []
    | Except.ok results => results

/-- Dictionary returned by get_collection_info; absent keys are Option
fields. -/
structure CollectionInfo where
  collection_name : Option String
  document_count : Option Nat
  persist_directory : Option String
  error : Option String
deriving DecidableEq, Repr

/-- VectorStoreManager.get_collection_info (lines 213-235). -/
def getCollectionInfo (m : VectorStoreManager) : CollectionInfo :=
  match m.vector_store with
  | none =>
    { collection_name := none, document_count := none,
      persist_directory := none, error := some "Vector store not initialized" }
  | some st =>
    { collection_name := some m.collection_name,
      document_count := some st.records.length,
      persist_directory := some m.persist_directory,
      error := none }

/-- VectorStoreManager.delete_collection (lines 237-252): drop the
collection and reinitialize the store with a fresh empty collection. -/
def deleteCollection (m : VectorStoreManager) : VectorStoreManager :=
  { m with vector_store := some { records := [], nextId := 0 } }

/-- A provider that always fails. -/
def failEmbedEnv : EmbedEnv :=
  { embed := fun _ => Except.error "embedding provider unreachable", dim := 3 }

/-- A provider that embeds every text as a fixed three-dimensional
vector. -/
def constEmbedEnv : EmbedEnv :=
  { embed := fun _ => Except.ok [1, 0, 0], dim := 3 }

/-- A concrete similarity score. -/
def simZero : List Int → List Int → Int := fun _ _ => 0

/-- A manager holding two records. -/
def twoRecordManager : VectorStoreManager :=
  { collection_name := "qa_documents", persist_directory := "./chroma_db",
    vector_store := some
      { records :=
          [{ id := 0, vector := [1, 0, 0], text := "alpha", metadata := [] },
           { id := 1, vector := [0, 1, 0], text := "beta", metadata := [] }],
        nextId := 2 } }

/-- A manager holding an empty collection. -/
def emptyManager : VectorStoreManager :=
  { collection_name := "qa_documents", persist_directory := "./chroma_db",
    vector_store := some { records := [], nextId := 0 } }

/-! ### Heap model for list aliasing (get_conversation_history)

Python lists are mutable references into a heap; the method
get_conversation_history returns self.conversation_history.copy(), a
fresh list cell holding the same entries.  The heap is a list of cells
addressed by allocation index. -/

/-- A heap of Python list objects holding conversation entries. -/
structure PyHeap where
  cells : List (List ConversationEntry)
deriving DecidableEq, Repr

/-- Read the list stored at a reference. -/
def readRef (h : PyHeap) (r : Nat) : List ConversationEntry :=
  h.cells.getD r []

/-- Overwrite the list stored at a reference. -/
def writeRef (h : PyHeap) (r : Nat) (v : List ConversationEntry) : PyHeap :=
  ⟨h.cells.set r v⟩

/-- Allocate a fresh list object, returning its reference. -/
def allocRef (h : PyHeap) (v : List ConversationEntry) : Nat × PyHeap :=
  (h.cells.length, ⟨h.cells ++ [v]⟩)

/-- QAChainManager.get_conversation_history (lines 214-221): return
self.conversation_history.copy(), a freshly allocated cell with the
same contents. -/
def getConversationHistoryRef (h : PyHeap) (selfHistory : Nat) : Nat × PyHeap :=
  allocRef h (readRef h selfHistory)

/-- The in-place list mutations the caller may apply to the returned
list: append, delete, item assignment, in-place reversal. -/
inductive ListOp where
  | pushBack (e : ConversationEntry)
  | removeAt (i : Nat)
  | setAt (i : Nat) (e : ConversationEntry)
  | reverseInPlace
deriving DecidableEq, Repr

/-- Apply one in-place mutation to list contents. -/
def applyListOp : ListOp → List ConversationEntry → List ConversationEntry
  | ListOp.pushBack e, l => l ++ [e]
  | ListOp.removeAt i, l => l.eraseIdx i
  | ListOp.setAt i e, l => l.set i e
  | ListOp.reverseInPlace, l => l.reverse

/-- Mutate the list object behind a reference in place. -/
def mutateRef (h : PyHeap) (r : Nat) (op : ListOp) : PyHeap :=
  writeRef h r (applyListOp op (readRef h r))

end QABot

namespace QABot

/-! ### Claim theorems for the vector store and the history copy -/

/-- A batch containing a document on which the provider fails or
returns a wrong-dimension vector makes the whole embedding step fail. -/
theorem embedAll_error_of_bad (env : EmbedEnv) (docs : List Document)
    (h : ∃ d ∈ docs, badEmbedding env d.page_content = true) :
    ∃ e, embedAll env docs = Except.error e := by
  induction docs with
  | nil => simp at h
  | cons d ds ih =>
    obtain ⟨x, hx, hbad⟩ := h
    rcases List.mem_cons.mp hx with rfl | hxs
    · unfold badEmbedding at hbad
      cases hek : env.embed x.page_content with
      | error e => exact ⟨e, by simp [embedAll, hek]⟩
      | ok v =>
        rw [hek] at hbad
        have hne : ¬ v.length = env.dim := by simpa using hbad
        exact ⟨"embedding has wrong dimensionality", by simp [embedAll, hek, hne]⟩
    · cases hek : env.embed d.page_content with
      | error e => exact ⟨e, by simp [embedAll, hek]⟩
      | ok v =>
        by_cases hdim : v.length = env.dim
        · obtain ⟨e, he⟩ := ih ⟨x, hxs, hbad⟩
          exact ⟨e, by simp [embedAll, hek, hdim, he]⟩
        · exact ⟨"embedding has wrong dimensionality", by simp [embedAll, hek, hdim]⟩

/-- C5: when the provider is unreachable or returns a wrong-dimension
vector for any chunk of the batch, add_documents fails with an error
and the manager, in particular its record set, is unchanged: nothing of
the batch is committed. -/
theorem c5_add_documents_atomic_on_embedding_failure
    (env : EmbedEnv) (m : VectorStoreManager) (docs : List Document)
    (h : ∃ d ∈ docs, badEmbedding env d.page_content = true) :
    (∃ e, (addDocuments env m docs).1 = Except.error e) ∧
    (addDocuments env m docs).2 = m := by
  cases docs with
  | nil => simp at h
  | cons d ds =>
    cases hvs : m.vector_store with
    | none =>
      exact ⟨⟨"vector store not initialized", by simp [addDocuments, hvs]⟩,
        by simp [addDocuments, hvs]⟩
    | some st =>
      obtain ⟨e, he⟩ := embedAll_error_of_bad env (d :: ds) h
      exact ⟨⟨e, by simp [addDocuments, hvs, chromaAddDocuments, he]⟩,
        by simp [addDocuments, hvs, chromaAddDocuments, he]⟩

/-- Witness for C5 with an unreachable provider. -/
theorem c5_add_documents_atomic_on_embedding_failure_witness :
    (∃ e, (addDocuments failEmbedEnv emptyManager
        [{ page_content := "text", metadata := [] }]).1 = Except.error e) ∧
    (addDocuments failEmbedEnv emptyManager
        [{ page_content := "text", metadata := [] }]).2 = emptyManager :=
  c5_add_documents_atomic_on_embedding_failure failEmbedEnv emptyManager
    [{ page_content := "text", metadata := [] }]
    ⟨{ page_content := "text", metadata := [] }, by decide⟩

/-- C6 counterexample: with an unreachable provider, similarity_search
over a two-record collection returns the plain empty list, the very
same value a successful search over an empty collection returns, while
a working provider over the same two-record collection returns a
nonempty result: the failure is swallowed, not surfaced. -/
theorem c6_counterexample_search_swallows_provider_failure :
    similaritySearch failEmbedEnv simZero twoRecordManager "query" 4 = [] ∧
    similaritySearch constEmbedEnv simZero emptyManager "query" 4 = [] ∧
    similaritySearch constEmbedEnv simZero twoRecordManager "query" 4 ≠ [] := by
  refine ⟨by decide, by decide, by decide⟩

/-- C6 amended: when the embedding provider fails during a search, the
exception is caught inside similarity_search and the call returns the
empty list, indistinguishable from a successful search over an empty
collection. -/
theorem c6_amended_search_returns_empty_on_provider_failure
    (env : EmbedEnv) (sim : List Int → List Int → Int)
    (m : VectorStoreManager) (st : ChromaState) (q : String) (k : Nat) (e : String)
    (hst : m.vector_store = some st)
    (he : env.embed q = Except.error e) :
    similaritySearch env sim m q k = [] := by
  simp [similaritySearch, hst, chromaSimilaritySearch, he]

/-- Witness for the amended C6 at a concrete failing provider. -/
theorem c6_amended_search_returns_empty_on_provider_failure_witness :
    similaritySearch failEmbedEnv simZero twoRecordManager "query" 4 = [] :=
  c6_amended_search_returns_empty_on_provider_failure failEmbedEnv simZero
    twoRecordManager
    { records :=
        [{ id := 0, vector := [1, 0, 0], text := "alpha", metadata := [] },
         { id := 1, vector := [0, 1, 0], text := "beta", metadata := [] }],
      nextId := 2 }
    "query" 4 "embedding provider unreachable" rfl rfl

/-- C7: after delete_collection the reported document count is zero and
every search over the cleared collection, for any query and any k of at
least one, returns the empty list; the store is reinitialized, so the
count is reported rather than an error. -/
theorem c7_clear_collection_empties
    (m : VectorStoreManager) (env : EmbedEnv) (sim : List Int → List Int → Int)
    (q : String) (k : Nat) (_hk : 1 ≤ k) :
    (getCollectionInfo (deleteCollection m)).document_count = some 0 ∧
    (getCollectionInfo (deleteCollection m)).error = none ∧
    similaritySearch env sim (deleteCollection m) q k = [] := by
  refine ⟨by simp [getCollectionInfo, deleteCollection], by simp [getCollectionInfo, deleteCollection], ?_⟩
  cases he : env.embed q with
  | error e => simp [similaritySearch, deleteCollection, chromaSimilaritySearch, he]
  | ok v => simp [similaritySearch, deleteCollection, chromaSimilaritySearch, he, sortRanked]

/-- Witness for C7 on a concrete two-record manager. -/
theorem c7_clear_collection_empties_witness :
    (getCollectionInfo (deleteCollection twoRecordManager)).document_count = some 0 ∧
    (getCollectionInfo (deleteCollection twoRecordManager)).error = none ∧
    similaritySearch constEmbedEnv simZero (deleteCollection twoRecordManager) "query" 1 = [] :=
  c7_clear_collection_empties twoRecordManager constEmbedEnv simZero "query" 1 (by decide)

/-- Mutating one list object leaves every other reference unchanged. -/
theorem readRef_mutateRef_ne (h : PyHeap) (r s : Nat) (op : ListOp) (hne : s ≠ r) :
    readRef (mutateRef h r op) s = readRef h s := by
  simp [readRef, mutateRef, writeRef, List.getD_eq_getElem?_getD,
    List.getElem?_set_ne (Ne.symm hne)]

/-- A whole sequence of mutations of one list object leaves every other
reference unchanged. -/
theorem foldl_mutate_preserves (r s : Nat) (hne : s ≠ r) (ops : List ListOp)
    (h : PyHeap) :
    readRef (ops.foldl (fun hh op => mutateRef hh r op) h) s = readRef h s := by
  induction ops generalizing h with
  | nil => rfl
  | cons op ops ih =>
    simp only [List.foldl_cons]
    rw [ih, readRef_mutateRef_ne _ _ _ _ hne]

/-- C10: get_conversation_history returns a copy: the returned list
holds the same entries as the stored history, and any sequence of
mutations applied to the returned list (appending, deleting, item
assignment, reversal) leaves the stored history unchanged. -/
theorem c10_get_history_returns_independent_copy
    (h : PyHeap) (selfHistory : Nat) (hlt : selfHistory < h.cells.length)
    (ops : List ListOp) :
    readRef (getConversationHistoryRef h selfHistory).2
        (getConversationHistoryRef h selfHistory).1 = readRef h selfHistory ∧
    readRef (ops.foldl
        (fun hh op => mutateRef hh (getConversationHistoryRef h selfHistory).1 op)
        (getConversationHistoryRef h selfHistory).2) selfHistory
      = readRef h selfHistory := by
  have hne : selfHistory ≠ h.cells.length := by omega
  constructor
  · show readRef ⟨h.cells ++ [readRef h selfHistory]⟩ h.cells.length = readRef h selfHistory
    simp [readRef, List.getD_eq_getElem?_getD, List.getElem?_concat_length]
  · have hr1 : (getConversationHistoryRef h selfHistory).1 = h.cells.length := rfl
    rw [hr1, foldl_mutate_preserves h.cells.length selfHistory hne ops _]
    show readRef ⟨h.cells ++ [readRef h selfHistory]⟩ selfHistory = readRef h selfHistory
    simp [readRef, List.getD_eq_getElem?_getD, List.getElem?_append_left hlt]

/-- A concrete stored conversation entry. -/
def c10Entry : ConversationEntry :=
  { timestamp := 0, question := "q", answer := "a", source_count := 1 }

/-- A concrete entry the caller appends to the returned list. -/
def c10EntryB : ConversationEntry :=
  { timestamp := 1, question := "x", answer := "y", source_count := 0 }

/-- A concrete heap with one stored history list. -/
def c10Heap : PyHeap := ⟨[[c10Entry]]⟩

/-- A concrete mutation sequence: append then reverse in place. -/
def c10Ops : List ListOp := [ListOp.pushBack c10EntryB, ListOp.reverseInPlace]

/-- Witness for C10 on a concrete one-cell heap with two mutations. -/
theorem c10_get_history_returns_independent_copy_witness :
    readRef (getConversationHistoryRef c10Heap 0).2
        (getConversationHistoryRef c10Heap 0).1 = readRef c10Heap 0 ∧
    readRef (c10Ops.foldl
        (fun hh op => mutateRef hh (getConversationHistoryRef c10Heap 0).1 op)
        (getConversationHistoryRef c10Heap 0).2) 0
      = readRef c10Heap 0 :=
  c10_get_history_returns_independent_copy c10Heap 0 (by decide) c10Ops

end QABot
